import Mathlib

/-!
Shallow embedding of the openobserve local-to-remote file-list
synchronization pipeline (src/job/file_list.rs and
src/job/files/mod.rs), together with theorems settling the frozen
claims about it.

Rust strings are modelled as `List Char` (`Str`); Rust's `str::split`
on a single character, `str::contains` and `str::replace` become the
structural helpers below.  The stateful part of the pipeline is
modelled by explicit state passing over a filesystem/remote-store
state, with an oracle environment standing for the external
collaborators (glob scan, WAL in-use guard, object storage, zstd) and
a trace of the side-effecting operations each call performs.  A Rust
`.unwrap()` panic or an out-of-bounds index is modelled as `none` of
an `Option` result.
-/

/-- Rust strings, modelled as lists of characters. -/
abbrev Str := List Char

/-- Rust's `str::split(sep)` for a single-character separator:
splitting the empty string yields `[[]]`, and adjacent separators
yield empty fields, exactly as in Rust. -/
def splitChar (sep : Char) : Str → List Str
  | [] => [[]]
  | c :: cs =>
    match splitChar sep cs with
    | [] => [[]]
    | t :: ts => if c = sep then [] :: t :: ts else (c :: t) :: ts

/-- `get_partition_key_from_filename` from src/job/files/mod.rs:
split the filename on `_`, keep the tokens containing `=`, replace
every `.` in a kept token by `_`, join with `/` and append a final
`/`. -/
def get_partition_key_from_filename (filename : Str) : Str :=
  let pk := List.intercalate ['/']
    (((splitChar '_' filename).filter (fun x => x.contains '=')).map
      (fun key => key.map (fun c => if c = '.' then '_' else c)))
  pk ++ ['/']

/-- The remote-key derivation inside `upload_file`
(src/job/file_list.rs lines 94-98): split the base filename on `_`
and build `file_list/<c1>/<c2>/<c3>/<c4>/<c5>.zst` from the fields at
positions 1 through 5 (0-based).  Rust indexes the collected vector
directly and panics when an index is out of bounds; that panic is
modelled by the `none` result. -/
def file_list_remote_key (file_key : Str) : Option Str :=
  let file_columns := splitChar '_' file_key
  match file_columns[1]?, file_columns[2]?, file_columns[3]?,
        file_columns[4]?, file_columns[5]? with
  | some c1, some c2, some c3, some c4, some c5 =>
    some ("file_list/".data ++ c1 ++ ['/'] ++ c2 ++ ['/'] ++ c3 ++ ['/']
          ++ c4 ++ ['/'] ++ c5 ++ ".zst".data)
  | _, _, _, _, _ => none

/-- Field `i` of the underscore-split filename, with an arbitrary
default out of range (used only to state theorems whose hypotheses
keep every access in range). -/
def underscoreField (file_key : Str) (i : Nat) : Str :=
  ((splitChar '_' file_key)[i]?).getD []

/-- Modelled from the spec: the artifact kinds distinguished by the
write-ahead-log concurrency guard (`StreamType` lives outside the
provided sources; only its `Filelist` variant is used here, the
manifest-level artifact kind). -/
inductive StreamType where
  | Logs
  | Filelist
  deriving DecidableEq, Repr

/-- The side-effecting operations the pipeline can perform against
the local filesystem and the remote object store. -/
inductive Op where
  | openFile (path : Str)
  | putRemote (key : Str)
  | removeFile (path : Str)
  | createDirAll (dir : Str)
  deriving DecidableEq, Repr

/-- The shared mutable state: the local files (path and byte
content) and the remote object store (key and byte content). -/
structure FsState where
  files : List (Str × List Nat)
  remote : List (Str × List Nat)
  deriving DecidableEq, Repr

/-- Oracle environment for the external collaborators consumed by
the pipeline: the result of the directory glob scan
(`scan_files_new`), the WAL in-use guard (`wal::check_in_use`), the
success of each remote put (`storage::put`) and each local delete
(`fs::remove_file`), and the zstd compressor. -/
structure Env where
  scanResult : Except Str (List Str)
  check_in_use : Str → Str → StreamType → Str → Bool
  putOk : Str → Bool
  removeOk : Str → Bool
  compress : List Nat → List Nat

/-- Rust std's `Path::file_name`, used by the cycle to extract the
base filename of a scanned path: the last non-empty, non-`.`
component, or `None` when there is none or it is `..`. -/
def path_file_name (p : Str) : Option Str :=
  match ((splitChar '/' p).filter (fun c => !(c == [] || c == ['.']))).getLast? with
  | none => none
  | some c => if c == ['.', '.'] then none else some c

/-- `upload_file` from src/job/file_list.rs: open and stat the file
(the `.unwrap()` panic on a missing file is the `none` result); if it
is empty, remove it locally and return an error; otherwise compress
its bytes, derive the remote key from the base filename (an
out-of-bounds field index panics, again `none`), and put the
compressed buffer to remote storage, returning the storage error on
failure.  The returned list records the operations performed. -/
def upload_file (env : Env) (st : FsState) (path_str file_key : Str) :
    Option (Except Str Unit × FsState × List Op) :=
  match st.files.lookup path_str with
  | none => none
  | some content =>
    if content.length = 0 then
      if env.removeOk path_str then
        some (Except.error ("File_list is empty: ".data ++ path_str),
              { st with files := st.files.filter (fun e => e.1 != path_str) },
              [Op.openFile path_str, Op.removeFile path_str])
      else
        some (Except.error ("File_list is empty: ".data ++ path_str), st,
              [Op.openFile path_str, Op.removeFile path_str])
    else
      let compressed_bytes := env.compress content
      match file_list_remote_key file_key with
      | none => none
      | some new_file_key =>
        if env.putOk new_file_key then
          some (Except.ok (),
                { st with remote := (new_file_key, compressed_bytes) :: st.remote },
                [Op.openFile path_str, Op.putRemote new_file_key])
        else
          some (Except.error "storage put error".data, st,
                [Op.openFile path_str, Op.putRemote new_file_key])

/-- The per-file body of the loop in `move_file_list_to_storage`:
extract the base filename (log and skip when it cannot be parsed),
skip the file when the WAL guard reports it in use, otherwise upload
it and, on upload success, remove the local file (a failed remove is
only logged). -/
def process_file (env : Env) (st : FsState) (path : Str) :
    Option (FsState × List Op) :=
  match path_file_name path with
  | none => some (st, [])
  | some file_name =>
    if env.check_in_use [] [] StreamType.Filelist file_name then
      some (st, [])
    else
      match upload_file env st path file_name with
      | none => none
      | some (Except.ok _, st', ops) =>
        if env.removeOk path then
          some ({ st' with files := st'.files.filter (fun e => e.1 != path) },
                ops ++ [Op.removeFile path])
        else
          some (st', ops ++ [Op.removeFile path])
      | some (Except.error _, st', ops) => some (st', ops)

/-- Sequential processing of the scanned files, threading the state
and accumulating the operation trace; a panic in any file aborts the
whole cycle (`none`). -/
def process_files (env : Env) (st : FsState) : List Str → Option (FsState × List Op)
  | [] => some (st, [])
  | f :: fs =>
    match process_file env st f with
    | none => none
    | some (st', ops) =>
      match process_files env st' fs with
      | none => none
      | some (st'', ops') => some (st'', ops ++ ops')

/-- `move_file_list_to_storage` from src/job/file_list.rs: scan the
`file_list` directory (a scan error is returned to the caller via
`?`), then process every discovered file; per-file errors are logged
inside `process_file` and the cycle returns `Ok(())`. -/
def move_file_list_to_storage (env : Env) (st : FsState) :
    Option (Except Str Unit × FsState × List Op) :=
  match env.scanResult with
  | Except.error e => some (Except.error e, st, [])
  | Except.ok files =>
    match process_files env st files with
    | none => none
    | some (st', ops) => some (Except.ok (), st', ops)

/-- The startup phase of `run` from src/job/file_list.rs: on a
non-ingester node return `Ok` immediately; otherwise create the WAL
working directory (`fs::create_dir_all(&CONFIG.common.data_wal_dir)`)
and, when that succeeds, enter the interval loop.  The boolean of the
result records whether the loop was entered. -/
def run_startup (is_ingester : Bool) (data_wal_dir : Str) (createDirOk : Bool) :
    Except Str Unit × List Op × Bool :=
  if !is_ingester then
    (Except.ok (), [], false)
  else if createDirOk then
    (Except.ok (), [Op.createDirAll data_wal_dir], true)
  else
    (Except.error "create dir failed".data, [Op.createDirAll data_wal_dir], false)

/-- A concrete environment whose scan finds one manifest and whose
remote store rejects every put (used to witness failure isolation). -/
def envPutFail : Env where
  scanResult := Except.ok ["wal/file_list/a_o_l_d_h_t.json".data]
  check_in_use := fun _ _ _ _ => false
  putOk := fun _ => false
  removeOk := fun _ => true
  compress := id

/-- A concrete environment whose WAL guard reports every filename in
use. -/
def envBusy : Env where
  scanResult := Except.ok ["wal/file_list/a_o_l_d_h_t.json".data]
  check_in_use := fun _ _ _ _ => true
  putOk := fun _ => true
  removeOk := fun _ => true
  compress := id

/-- A concrete state holding one non-empty manifest file. -/
def stOne : FsState where
  files := [("wal/file_list/a_o_l_d_h_t.json".data, [1])]
  remote := []

/-- A concrete state holding one zero-length manifest file. -/
def stEmpty : FsState where
  files := [("wal/file_list/a_o_l_d_h_t.json".data, [])]
  remote := []

/-! ### Helper lemmas -/

/-- Splitting a list with at least `n` fields keeps every index below
`n` in bounds. -/
theorem splitChar_getElem?_isSome {sep : Char} {s : Str} {i n : Nat}
    (hn : n ≤ (splitChar sep s).length) (hi : i < n) :
    ∃ t, (splitChar sep s)[i]? = some t := by
  have h : i < (splitChar sep s).length := lt_of_lt_of_le hi hn
  exact ⟨(splitChar sep s)[i], List.getElem?_eq_getElem h⟩

/-- Mapping after filtering is filtering-and-mapping in one pass. -/
theorem filter_map_eq_filterMap {α β : Type} (p : α → Bool) (f : α → β)
    (l : List α) :
    (l.filter p).map f = l.filterMap (fun x => if p x then some (f x) else none) := by
  induction l with
  | nil => rfl
  | cons a t ih =>
    by_cases h : p a <;> simp [List.filter_cons, List.filterMap_cons, h, ih]

/-! ### Claim theorems -/

/-- C2: for every base filename with at least six underscore-delimited
fields, the derived remote key is
`file_list/<field1>/<field2>/<field3>/<field4>/<field5>.zst`, it
depends only on fields 1 through 5, and the filename
`x_org1_logs_2023-10-01_13_abc` yields
`file_list/org1/logs/2023-10-01/13/abc.zst`. -/
theorem remote_key_derivation (f : Str)
    (h : 6 ≤ (splitChar '_' f).length) :
    file_list_remote_key f =
      some ("file_list/".data ++ underscoreField f 1 ++ ['/']
            ++ underscoreField f 2 ++ ['/'] ++ underscoreField f 3 ++ ['/']
            ++ underscoreField f 4 ++ ['/'] ++ underscoreField f 5 ++ ".zst".data)
    ∧ (∀ g : Str,
        (∀ i, 1 ≤ i → i ≤ 5 → (splitChar '_' g)[i]? = (splitChar '_' f)[i]?) →
        file_list_remote_key g = file_list_remote_key f)
    ∧ file_list_remote_key "x_org1_logs_2023-10-01_13_abc".data =
        some "file_list/org1/logs/2023-10-01/13/abc.zst".data := by
  obtain ⟨c1, h1⟩ := splitChar_getElem?_isSome h (by norm_num : (1:Nat) < 6)
  obtain ⟨c2, h2⟩ := splitChar_getElem?_isSome h (by norm_num : (2:Nat) < 6)
  obtain ⟨c3, h3⟩ := splitChar_getElem?_isSome h (by norm_num : (3:Nat) < 6)
  obtain ⟨c4, h4⟩ := splitChar_getElem?_isSome h (by norm_num : (4:Nat) < 6)
  obtain ⟨c5, h5⟩ := splitChar_getElem?_isSome h (by norm_num : (5:Nat) < 6)
  refine ⟨?_, ?_, by decide⟩
  · simp [file_list_remote_key, underscoreField, h1, h2, h3, h4, h5]
  · intro g hg
    have g1 := hg 1 (by norm_num) (by norm_num)
    have g2 := hg 2 (by norm_num) (by norm_num)
    have g3 := hg 3 (by norm_num) (by norm_num)
    have g4 := hg 4 (by norm_num) (by norm_num)
    have g5 := hg 5 (by norm_num) (by norm_num)
    simp [file_list_remote_key, g1, g2, g3, g4, g5]

/-- Witness for C2 at the concrete manifest filename from the spec. -/
theorem remote_key_derivation_witness :
    6 ≤ (splitChar '_' "x_org1_logs_2023-10-01_13_abc".data).length ∧
    file_list_remote_key "x_org1_logs_2023-10-01_13_abc".data =
      some ("file_list/".data
            ++ underscoreField "x_org1_logs_2023-10-01_13_abc".data 1 ++ ['/']
            ++ underscoreField "x_org1_logs_2023-10-01_13_abc".data 2 ++ ['/']
            ++ underscoreField "x_org1_logs_2023-10-01_13_abc".data 3 ++ ['/']
            ++ underscoreField "x_org1_logs_2023-10-01_13_abc".data 4 ++ ['/']
            ++ underscoreField "x_org1_logs_2023-10-01_13_abc".data 5 ++ ".zst".data) :=
  ⟨by decide, (remote_key_derivation "x_org1_logs_2023-10-01_13_abc".data (by decide)).1⟩

/-- C9: under the precondition of at least six underscore-delimited
fields, remote-key derivation never reaches an out-of-bounds field
access: it totally produces a key. -/
theorem remote_key_total (f : Str)
    (h : 6 ≤ (splitChar '_' f).length) :
    ∃ k, file_list_remote_key f = some k := by
  obtain ⟨c1, h1⟩ := splitChar_getElem?_isSome h (by norm_num : (1:Nat) < 6)
  obtain ⟨c2, h2⟩ := splitChar_getElem?_isSome h (by norm_num : (2:Nat) < 6)
  obtain ⟨c3, h3⟩ := splitChar_getElem?_isSome h (by norm_num : (3:Nat) < 6)
  obtain ⟨c4, h4⟩ := splitChar_getElem?_isSome h (by norm_num : (4:Nat) < 6)
  obtain ⟨c5, h5⟩ := splitChar_getElem?_isSome h (by norm_num : (5:Nat) < 6)
  exact ⟨"file_list/".data ++ c1 ++ ['/'] ++ c2 ++ ['/'] ++ c3 ++ ['/']
          ++ c4 ++ ['/'] ++ c5 ++ ".zst".data,
        by simp [file_list_remote_key, h1, h2, h3, h4, h5]⟩

/-- Witness for C9 at a concrete six-field filename. -/
theorem remote_key_total_witness :
    6 ≤ (splitChar '_' "a_b_c_d_e_f".data).length ∧
    ∃ k, file_list_remote_key "a_b_c_d_e_f".data = some k :=
  ⟨by decide, remote_key_total "a_b_c_d_e_f".data (by decide)⟩

/-- C7: generic partition-key derivation keeps exactly the
underscore-delimited tokens containing `=` (in input order),
rewrites `.` to `_` inside them, joins them with `/` and appends a
trailing `/`; the input `org=o1_stream=logs_2022_10_12_13` yields
`org=o1/stream=logs/`. -/
theorem partition_key_spec :
    (∀ fn : Str,
       get_partition_key_from_filename fn =
         List.intercalate ['/']
           ((splitChar '_' fn).filterMap
             (fun t => if t.contains '=' then
                 some (t.map (fun c => if c = '.' then '_' else c)) else none))
         ++ ['/'])
    ∧ get_partition_key_from_filename "org=o1_stream=logs_2022_10_12_13".data =
        "org=o1/stream=logs/".data := by
  constructor
  · intro fn
    simp [get_partition_key_from_filename, filter_map_eq_filterMap]
  · decide

/-- C10: when no underscore-delimited token of the input contains
`=`, generic partition-key derivation returns exactly `/`; and for
every input the result is non-empty and ends with `/`. -/
theorem partition_key_no_kv (fn : Str)
    (h : ∀ t ∈ splitChar '_' fn, t.contains '=' = false) :
    get_partition_key_from_filename fn = ['/']
    ∧ (∀ g : Str, get_partition_key_from_filename g ≠ []
         ∧ (get_partition_key_from_filename g).getLast? = some '/') := by
  constructor
  · have hfil : (splitChar '_' fn).filter (fun x => x.contains '=') = [] := by
      apply List.filter_eq_nil_iff.mpr
      intro a ha
      simpa using h a ha
    simp only [get_partition_key_from_filename]
    rw [hfil]
    rfl
  · intro g
    constructor
    · simp [get_partition_key_from_filename]
    · exact List.getLast?_concat _

/-- Witness for C10: the empty input has no `=` token and derives
`/`. -/
theorem partition_key_no_kv_witness :
    (∀ t ∈ splitChar '_' ("".data), t.contains '=' = false) ∧
    (get_partition_key_from_filename "".data = ['/']
     ∧ (∀ g : Str, get_partition_key_from_filename g ≠ []
          ∧ (get_partition_key_from_filename g).getLast? = some '/')) :=
  ⟨by decide, partition_key_no_kv "".data (by decide)⟩

/-- C1: a cycle returns the scan error (with no file processed) when
the directory scan fails; whenever the scan succeeds, every
(non-panicking) run of the cycle returns `Ok` regardless of per-file
upload or delete failures; and processing one file never aborts the
processing of the remaining files: the cycle always continues with
the rest of the list. -/
theorem cycle_failure_isolation (env : Env) (st : FsState) :
    (∀ e, env.scanResult = Except.error e →
       move_file_list_to_storage env st = some (Except.error e, st, []))
    ∧ (∀ fl r st' ops, env.scanResult = Except.ok fl →
       move_file_list_to_storage env st = some (r, st', ops) →
       r = Except.ok ())
    ∧ (∀ f fl st' ops, process_files env st (f :: fl) = some (st', ops) →
       ∃ st1 ops1 ops2, process_file env st f = some (st1, ops1)
         ∧ process_files env st1 fl = some (st', ops2)
         ∧ ops = ops1 ++ ops2) := by
  refine ⟨?_, ?_, ?_⟩
  · intro e he
    simp [move_file_list_to_storage, he]
  · intro fl r st' ops hs hm
    cases hpf : process_files env st fl with
    | none => simp [move_file_list_to_storage, hs, hpf] at hm
    | some p =>
      simp [move_file_list_to_storage, hs, hpf] at hm
      exact hm.1.symm
  · intro f fl st' ops hpf
    cases h1 : process_file env st f with
    | none => simp [process_files, h1] at hpf
    | some p =>
      obtain ⟨st1, ops1⟩ := p
      cases h2 : process_files env st1 fl with
      | none => simp [process_files, h1, h2] at hpf
      | some q =>
        obtain ⟨st2, ops2⟩ := q
        simp [process_files, h1, h2] at hpf
        exact ⟨st1, ops1, ops2, rfl, by rw [← hpf.1]; exact h2, hpf.2.symm⟩

/-- Witness for C1: with a successful scan of one file whose upload
fails, the cycle still returns `Ok` and the file is retained. -/
theorem cycle_failure_isolation_witness :
    envPutFail.scanResult = Except.ok ["wal/file_list/a_o_l_d_h_t.json".data]
    ∧ move_file_list_to_storage envPutFail stOne
        = some (Except.ok (), stOne,
                [Op.openFile "wal/file_list/a_o_l_d_h_t.json".data,
                 Op.putRemote "file_list/o/l/d/h/t.json.zst".data])
    ∧ (Except.ok () : Except Str Unit) = Except.ok () :=
  ⟨rfl, by rfl,
   (cycle_failure_isolation envPutFail stOne).2.1
     ["wal/file_list/a_o_l_d_h_t.json".data] _ _ _ rfl (by rfl)⟩

/-- C3: a discovered file whose base filename the WAL guard reports
in use is skipped entirely in that cycle: the state is unchanged and
no operation (open, put, remove) is performed on it. -/
theorem in_use_skip (env : Env) (st : FsState) (path file_name : Str)
    (hname : path_file_name path = some file_name)
    (huse : env.check_in_use [] [] StreamType.Filelist file_name = true) :
    process_file env st path = some (st, []) := by
  simp [process_file, hname, huse]

/-- Witness for C3 at a concrete in-use file. -/
theorem in_use_skip_witness :
    path_file_name "wal/file_list/a_o_l_d_h_t.json".data
        = some "a_o_l_d_h_t.json".data
    ∧ envBusy.check_in_use [] [] StreamType.Filelist "a_o_l_d_h_t.json".data = true
    ∧ process_file envBusy stOne "wal/file_list/a_o_l_d_h_t.json".data
        = some (stOne, []) :=
  ⟨by decide, rfl,
   in_use_skip envBusy stOne _ "a_o_l_d_h_t.json".data (by decide) rfl⟩

/-- C4: a zero-length manifest is deleted locally and the upload
path returns an error; the uploader is never called for it (no
`putRemote` operation, and the resulting state's remote store is
untouched since only the `files` field changes). -/
theorem empty_file_deleted (env : Env) (st : FsState)
    (path file_key : Str) (content : List Nat)
    (hlook : st.files.lookup path = some content)
    (hlen : content.length = 0)
    (hrm : env.removeOk path = true) :
    upload_file env st path file_key =
      some (Except.error ("File_list is empty: ".data ++ path),
            { st with files := st.files.filter (fun e => e.1 != path) },
            [Op.openFile path, Op.removeFile path])
    ∧ (∀ k, Op.putRemote k ∉ [Op.openFile path, Op.removeFile path]) := by
  constructor
  · simp [upload_file, hlook, hlen, hrm]
  · intro k
    simp

/-- Witness for C4 at a concrete empty manifest. -/
theorem empty_file_deleted_witness :
    stEmpty.files.lookup "wal/file_list/a_o_l_d_h_t.json".data = some []
    ∧ (([] : List Nat)).length = 0
    ∧ envPutFail.removeOk "wal/file_list/a_o_l_d_h_t.json".data = true
    ∧ (upload_file envPutFail stEmpty "wal/file_list/a_o_l_d_h_t.json".data
         "a_o_l_d_h_t.json".data =
        some (Except.error ("File_list is empty: ".data
                ++ "wal/file_list/a_o_l_d_h_t.json".data),
              { files := [], remote := [] },
              [Op.openFile "wal/file_list/a_o_l_d_h_t.json".data,
               Op.removeFile "wal/file_list/a_o_l_d_h_t.json".data])
       ∧ (∀ k, Op.putRemote k ∉
            [Op.openFile "wal/file_list/a_o_l_d_h_t.json".data,
             Op.removeFile "wal/file_list/a_o_l_d_h_t.json".data])) :=
  ⟨rfl, rfl, rfl,
   empty_file_deleted envPutFail stEmpty _ "a_o_l_d_h_t.json".data [] rfl rfl rfl⟩

/-- C5: for a non-empty manifest, a failed remote put makes the
upload path return the storage error with the state unchanged (the
local file is retained untouched for the next cycle), and at the
cycle level the local file is removed only when the upload has
returned success. -/
theorem upload_failure_retained (env : Env) (st : FsState)
    (path file_name : Str) (content : List Nat) (rkey : Str)
    (hlook : st.files.lookup path = some content)
    (hne : content.length ≠ 0)
    (hkey : file_list_remote_key file_name = some rkey)
    (hput : env.putOk rkey = false) :
    upload_file env st path file_name =
      some (Except.error "storage put error".data, st,
            [Op.openFile path, Op.putRemote rkey])
    ∧ (∀ name st' ops, path_file_name path = some name →
         process_file env st path = some (st', ops) →
         Op.removeFile path ∈ ops →
         ∃ stu opsu,
           upload_file env st path name = some (Except.ok (), stu, opsu)) := by
  constructor
  · simp [upload_file, hlook, hne, hkey, hput]
  · intro name st' ops hn hp hmem
    by_cases hbusy : env.check_in_use [] [] StreamType.Filelist name = true
    · simp [process_file, hn, hbusy] at hp
      rw [hp.2] at hmem
      cases hmem
    · cases hu : upload_file env st path name with
      | none => simp [process_file, hn, hbusy, hu] at hp
      | some t =>
        obtain ⟨res, stu, opsu⟩ := t
        cases res with
        | ok u =>
          cases u
          exact ⟨stu, opsu, by simp [hu]⟩
        | error m =>
          simp [process_file, hn, hbusy, hu] at hp
          rw [← hp.2] at hmem
          cases hk : file_list_remote_key name with
          | none => simp [upload_file, hlook, hne, hk] at hu
          | some k =>
            by_cases hpk : env.putOk k = true
            · simp [upload_file, hlook, hne, hk, hpk] at hu
            · simp [upload_file, hlook, hne, hk, hpk] at hu
              rw [← hu.2.2] at hmem
              simp at hmem

/-- Witness for C5: the upload of a concrete non-empty manifest
against a remote store that rejects the put. -/
theorem upload_failure_retained_witness :
    stOne.files.lookup "wal/file_list/a_o_l_d_h_t.json".data = some [1]
    ∧ ([1] : List Nat).length ≠ 0
    ∧ file_list_remote_key "a_o_l_d_h_t.json".data
        = some "file_list/o/l/d/h/t.json.zst".data
    ∧ envPutFail.putOk "file_list/o/l/d/h/t.json.zst".data = false
    ∧ upload_file envPutFail stOne "wal/file_list/a_o_l_d_h_t.json".data
        "a_o_l_d_h_t.json".data =
        some (Except.error "storage put error".data, stOne,
              [Op.openFile "wal/file_list/a_o_l_d_h_t.json".data,
               Op.putRemote "file_list/o/l/d/h/t.json.zst".data]) :=
  ⟨rfl, by decide, by decide, rfl,
   (upload_failure_retained envPutFail stOne
      "wal/file_list/a_o_l_d_h_t.json".data "a_o_l_d_h_t.json".data [1]
      "file_list/o/l/d/h/t.json.zst".data rfl (by decide) (by decide) rfl).1⟩

/-- C6 (counterexample): on an ingester node the startup phase
creates only the WAL working directory; no creation of the
`file_list` subdirectory beneath it is performed. -/
theorem run_startup_no_filelist_subdir :
    (run_startup true "./data/wal".data true).2.1
        = [Op.createDirAll "./data/wal".data]
    ∧ Op.createDirAll "./data/wal/file_list".data
        ∉ (run_startup true "./data/wal".data true).2.1 := by
  constructor
  · rfl
  · decide

/-- C6 (amended): on an ingester node the startup phase ensures the
working directory exists via one recursive directory creation and
succeeds, entering the loop; the `file_list` subdirectory is not
separately created. -/
theorem run_startup_creates_wal_dir (d : Str) :
    run_startup true d true = (Except.ok (), [Op.createDirAll d], true) := rfl

/-- C8: on a non-ingester node the entry point returns success
immediately, performs no operation at all, and starts no loop. -/
theorem non_ingester_noop (d : Str) (createDirOk : Bool) :
    run_startup false d createDirOk = (Except.ok (), [], false) := rfl
